import Mathlib

/-!
Verification of the sidecar supervisor in `app/src-tauri/src/lib.rs`.

The Rust code is shallowly embedded: I/O actions (TCP bind, TCP connect,
process spawn) are parameters ("oracles") describing what the operating
system answers, the shared `Mutex<SidecarState>` is explicit state passing
with a `poisoned : Bool` flag modelling a failed `lock()`, and the
orchestration function `spawn_sidecar` is embedded as a function producing
the ordered list of observable actions (log lines, state writes, event
emissions) that the Rust function performs.  All definitions are
executable, so concrete runs can be evaluated inside proofs.
-/

namespace Claudetini

/-- Embeds Rust `struct SidecarState { port: u16, child: Option<CommandChild> }`.
The child process handle is abstracted to an identifier. -/
structure SidecarState where
  port : Nat
  child : Option Nat
deriving DecidableEq, Repr

/-- The state managed at startup: `SidecarState { port: 0, child: None }`
(from `run`'s `.manage(...)` call). -/
def initialState : SidecarState := { port := 0, child := none }

/-- Embeds Rust `struct SidecarReadyPayload { port: u16 }`. -/
structure SidecarReadyPayload where
  port : Nat
deriving DecidableEq, Repr

/-- Result of `state.lock()`: `none` models `Err(PoisonError)`, `some s`
models `Ok(guard)` viewing the current state `s`. -/
def lockResult (poisoned : Bool) (s : SidecarState) : Option SidecarState :=
  if poisoned then none else some s

/-- Embeds the Tauri command `get_sidecar_port`:
`state.lock().ok().map(|s| s.port).filter(|&p| p != 0)`. -/
def get_sidecar_port (lock : Option SidecarState) : Option Nat :=
  Option.filter (fun p => p != 0) (Option.map SidecarState.port lock)

/-- Embeds the dev-mode state write
`if let Ok(mut s) = state.lock() { s.port = port; }`:
skipped silently when the lock fails. -/
def devStorePort (poisoned : Bool) (s : SidecarState) (port : Nat) : SidecarState :=
  if poisoned then s else { s with port := port }

/-- Embeds the production state write
`if let Ok(mut s) = state.lock() { s.port = port; s.child = Some(child); }`. -/
def prodStore (poisoned : Bool) (s : SidecarState) (port : Nat) (child : Nat) :
    SidecarState :=
  if poisoned then s else { s with port := port, child := some child }

/-- Embeds the shutdown step in `run`:
`state.lock().ok().and_then(|mut s| s.child.take())`; the first component is
the handle handed to `kill()` (if any), the second the state left behind. -/
def shutdownTake (poisoned : Bool) (s : SidecarState) : Option Nat × SidecarState :=
  if poisoned then (none, s) else (s.child, { s with child := none })

/-- Outcome of `TcpListener::bind("127.0.0.1:0")` followed by
`listener.local_addr()`, as answered by the operating system:
either the bind itself fails, or reading back the bound local address
fails, or the OS-assigned port is returned. -/
inductive BindOutcome where
  | bindFail (msg : String)
  | localAddrFail (msg : String)
  | ok (port : Nat)
deriving DecidableEq, Repr

/-- Embeds Rust `find_free_port`.  The `bind` oracle is applied to the
literal address string the code binds to. -/
def find_free_port (bind : String → BindOutcome) : Except String Nat :=
  match bind "127.0.0.1:0" with
  | BindOutcome.bindFail e => Except.error ("Failed to bind TCP: " ++ e)
  | BindOutcome.localAddrFail e => Except.error ("Failed to get local addr: " ++ e)
  | BindOutcome.ok port => Except.ok port

/-- The data interpolated into `poll_health`'s error string
`"Sidecar failed to become healthy after {max_attempts} attempts on port {port}"`. -/
structure PollError where
  maxAttempts : Nat
  port : Nat
deriving DecidableEq, Repr

/-- The error string built by `poll_health` on exhaustion. -/
def pollErrorMessage (pe : PollError) : String :=
  "Sidecar failed to become healthy after " ++ toString pe.maxAttempts ++
    " attempts on port " ++ toString pe.port

/-- Observable side effects of one `poll_health` run: how many TCP connect
attempts were made and how many milliseconds were spent sleeping. -/
structure PollTrace where
  attempts : Nat
  sleptMs : Nat
deriving DecidableEq, Repr

/-- Loop body of `poll_health`, structurally recursive on the number of
remaining attempts.  `attempt` is the 1-based attempt counter of the Rust
`for attempt in 1..=max_attempts` loop; the invariant of the caller is
`attempt + remaining = maxAttempts + 1`, so the Rust sleep condition
`attempt < max_attempts` is `remaining > 1` before the decrement, i.e.
`r > 0` after matching `remaining = r + 1`. -/
def pollHealthAux (connect : Nat → Bool) (port maxAttempts : Nat) :
    Nat → Nat → PollTrace → Except PollError Unit × PollTrace
  | _, 0, tr => (Except.error ⟨maxAttempts, port⟩, tr)
  | attempt, r + 1, tr =>
    if connect attempt then
      (Except.ok (), { tr with attempts := tr.attempts + 1 })
    else
      pollHealthAux connect port maxAttempts (attempt + 1) r
        { attempts := tr.attempts + 1,
          sleptMs := if r > 0 then tr.sleptMs + 200 else tr.sleptMs }

/-- Embeds Rust `poll_health(port, max_attempts)`.  The `connect` oracle
says whether the TCP connect of the given (1-based) attempt succeeds. -/
def poll_health (connect : Nat → Bool) (port maxAttempts : Nat) :
    Except PollError Unit × PollTrace :=
  pollHealthAux connect port maxAttempts 1 maxAttempts ⟨0, 0⟩

/-- First attempt index in `[attempt, attempt + r)` whose connect succeeds
(helper for characterising `pollHealthAux`). -/
def firstTrue (connect : Nat → Bool) : Nat → Nat → Option Nat
  | _, 0 => none
  | attempt, r + 1 =>
    if connect attempt then some attempt else firstTrue connect (attempt + 1) r

/-- Embeds `tauri_plugin_shell::process::CommandEvent` (stdout/stderr lines
carry raw bytes; `Terminated` carries exit code and signal; `Error` is the
variant consumed by the catch-all `_ => {}` arm). -/
inductive CommandEvent where
  | stdout (line : List Nat)
  | stderr (line : List Nat)
  | terminated (code : Option Int) (signal : Option Int)
  | errEvent (msg : String)
deriving DecidableEq, Repr

/-- One logged line of the drain loop: `info` is a `println!` of a stdout
line, `errOut` an `eprintln!` of a stderr line, `terminatedLog` the
`eprintln!` of the exit status. -/
inductive LogEntry where
  | info (line : List Nat)
  | errOut (line : List Nat)
  | terminatedLog (code : Option Int) (signal : Option Int)
deriving DecidableEq, Repr

/-- Embeds Rust `drain_sidecar_events`.  The channel is the list of records
the child ever produces (`[]` models a closed channel); the result is the
list of log lines written, paired with the records left unread when the
loop exits. -/
def drain_sidecar_events : List CommandEvent → List LogEntry × List CommandEvent
  | [] => ([], [])
  | CommandEvent.stdout line :: rest =>
    let r := drain_sidecar_events rest
    (LogEntry.info line :: r.1, r.2)
  | CommandEvent.stderr line :: rest =>
    let r := drain_sidecar_events rest
    (LogEntry.errOut line :: r.1, r.2)
  | CommandEvent.terminated code signal :: rest =>
    ([LogEntry.terminatedLog code signal], rest)
  | CommandEvent.errEvent _ :: rest => drain_sidecar_events rest

/-- Whether a record is the `Terminated` variant. -/
def isTerminated : CommandEvent → Bool
  | CommandEvent.terminated _ _ => true
  | _ => false

/-- Modelled from the spec: the records consumed "up to and including
`Terminated`" — the prefix of the stream through the first `Terminated`
record (the whole stream when none occurs). -/
def consumedRecords : List CommandEvent → List CommandEvent
  | [] => []
  | e :: rest => if isTerminated e then [e] else e :: consumedRecords rest

/-- Modelled from the spec: the records after the first `Terminated`, which
the loop must "never read past". -/
def unreadRecords : List CommandEvent → List CommandEvent
  | [] => []
  | e :: rest => if isTerminated e then rest else unreadRecords rest

/-- Modelled from the spec: the log lines one record produces — stdout at
info level, stderr at error level, `Terminated` the exit status line,
other variants nothing. -/
def logOf : CommandEvent → List LogEntry
  | CommandEvent.stdout line => [LogEntry.info line]
  | CommandEvent.stderr line => [LogEntry.errOut line]
  | CommandEvent.terminated code signal => [LogEntry.terminatedLog code signal]
  | CommandEvent.errEvent _ => []

/-- Concatenation of `logOf` over a record list, in arrival order. -/
def logsOf : List CommandEvent → List LogEntry
  | [] => []
  | e :: rest => logOf e ++ logsOf rest

/-- One observable action of the orchestrator `spawn_sidecar`: a log line,
a write to the shared `SidecarState`, or the emission of the
`sidecar-ready` event. -/
inductive Action where
  | logInfo (msg : String)
  | logError (msg : String)
  | setPort (port : Nat)
  | setPortChild (port : Nat) (child : Nat)
  | emitReady (payload : SidecarReadyPayload)
deriving DecidableEq, Repr

/-- Embeds Rust `spawn_sidecar` as the ordered list of observable actions
it performs.  Oracles: `devMode` is `cfg!(debug_assertions)`; `bind`
answers the port allocator's TCP bind; `sidecarCmd` is the result of
`app_handle.shell().sidecar("claudetini-sidecar")`; `spawnResult` the
result of `.spawn()` (the child handle id on success); `connect` answers
the health prober's TCP connects.  Only the supervisor's own actions are
listed: the drain loop runs as a separate task (`drain_sidecar_events`)
and the probe's internal effects are `poll_health`'s trace.  The mutex is
never poisoned in a real run (no lock holder can panic), so the state
writes here are the lock-success ones; the poisoned branches are covered
separately via `devStorePort`/`prodStore`/`shutdownTake`. -/
def spawn_sidecar (devMode : Bool) (bind : String → BindOutcome)
    (sidecarCmd : Except String Unit) (spawnResult : Except String Nat)
    (connect : Nat → Bool) : List Action :=
  if devMode then
    let port : Nat := 9876
    Action.logInfo ("Dev mode: assuming sidecar on port " ++ toString port) ::
    Action.setPort port ::
    (match (poll_health connect port 30).1 with
     | Except.ok _ => [Action.emitReady ⟨port⟩]
     | Except.error _ =>
       [Action.logError ("Dev sidecar not reachable on port " ++ toString port ++
         " -- frontend will retry")])
  else
    match find_free_port bind with
    | Except.error e => [Action.logError ("Could not find free port: " ++ e)]
    | Except.ok port =>
      Action.logInfo ("Spawning sidecar on port " ++ toString port) ::
      (match sidecarCmd with
       | Except.error e => [Action.logError ("Failed to create sidecar command: " ++ e)]
       | Except.ok _ =>
         match spawnResult with
         | Except.error e => [Action.logError ("Failed to spawn sidecar: " ++ e)]
         | Except.ok child =>
           Action.logInfo "Sidecar process spawned, polling health..." ::
           Action.setPortChild port child ::
           (match (poll_health connect port 30).1 with
            | Except.ok _ => [Action.emitReady ⟨port⟩]
            | Except.error pe =>
              [Action.logError ("Sidecar health poll failed: " ++ pollErrorMessage pe)]))

/-- Effect of one action on the shared state (log lines and event emission
do not touch it; the two writes go through the lock-success mutations). -/
def applyAction (s : SidecarState) : Action → SidecarState
  | Action.setPort port => devStorePort false s port
  | Action.setPortChild port child => prodStore false s port child
  | _ => s

/-- State after performing a list of actions in order. -/
def applyTrace (s : SidecarState) (tr : List Action) : SidecarState :=
  tr.foldl applyAction s

/-- Whether an action writes the shared state. -/
def isWrite : Action → Bool
  | Action.setPort _ => true
  | Action.setPortChild _ _ => true
  | _ => false

/-- Whether an action writes port `p` into the shared state. -/
def writesPort (p : Nat) : Action → Bool
  | Action.setPort q => q == p
  | Action.setPortChild q _ => q == p
  | _ => false

/-! ## Helper lemmas -/

/-- On a healthy lock, `get_sidecar_port` filters the stored port against 0. -/
lemma get_sidecar_port_some (s : SidecarState) :
    get_sidecar_port (some s) = if s.port = 0 then none else some s.port := by
  by_cases h : s.port = 0 <;>
    simp [get_sidecar_port, Option.filter, h]

/-- What a `some` answer of `firstTrue` means: that attempt succeeds, lies
in the searched window, and every earlier attempt in the window fails. -/
lemma firstTrue_some (connect : Nat → Bool) :
    ∀ (r a k : Nat), firstTrue connect a r = some k →
      connect k = true ∧ a ≤ k ∧ k < a + r ∧ ∀ j, a ≤ j → j < k → connect j = false := by
  intro r
  induction r with
  | zero => intro a k h; simp [firstTrue] at h
  | succ r ih =>
    intro a k h
    by_cases hc : connect a = true
    · simp [firstTrue, hc] at h
      subst h
      exact ⟨hc, le_refl _, by omega, fun j hj hjk => by omega⟩
    · rw [Bool.not_eq_true] at hc
      simp [firstTrue, hc] at h
      obtain ⟨hk, ha, hb, hmin⟩ := ih (a + 1) k h
      refine ⟨hk, by omega, by omega, fun j hj hjk => ?_⟩
      rcases Nat.eq_or_lt_of_le hj with hja | hja
      · simpa [← hja] using hc
      · exact hmin j hja hjk

/-- A `none` answer of `firstTrue` means every attempt in the window fails. -/
lemma firstTrue_none (connect : Nat → Bool) :
    ∀ (r a : Nat), firstTrue connect a r = none ↔
      ∀ k, a ≤ k → k < a + r → connect k = false := by
  intro r
  induction r with
  | zero => intro a; simp [firstTrue]; intro k h1 h2; omega
  | succ r ih =>
    intro a
    by_cases hc : connect a = true
    · simp [firstTrue, hc]
      exact ⟨a, le_refl a, by omega, hc⟩
    · rw [Bool.not_eq_true] at hc
      simp [firstTrue, hc, ih (a + 1)]
      constructor
      · intro h k h1 h2
        rcases Nat.eq_or_lt_of_le h1 with h1 | h1
        · simpa [← h1] using hc
        · exact h k h1 (by omega)
      · intro h k h1 h2
        exact h k (by omega) (by omega)

/-- Closed form of the `poll_health` loop body: the result and the
attempt/sleep accounting are determined by the first succeeding attempt in
the remaining window (if any). -/
lemma pollHealthAux_eq (connect : Nat → Bool) (port maxA : Nat) :
    ∀ (r attempt : Nat) (tr : PollTrace),
    pollHealthAux connect port maxA attempt r tr =
      match firstTrue connect attempt r with
      | some k =>
        (Except.ok (), ⟨tr.attempts + (k + 1 - attempt), tr.sleptMs + 200 * (k - attempt)⟩)
      | none =>
        (Except.error ⟨maxA, port⟩, ⟨tr.attempts + r, tr.sleptMs + 200 * (r - 1)⟩) := by
  intro r
  induction r with
  | zero => intro attempt tr; simp [pollHealthAux, firstTrue]
  | succ r ih =>
    intro attempt tr
    by_cases hc : connect attempt = true
    · simp [pollHealthAux, firstTrue, hc]
    · rw [Bool.not_eq_true] at hc
      rw [show pollHealthAux connect port maxA attempt (r + 1) tr =
        pollHealthAux connect port maxA (attempt + 1) r
          { attempts := tr.attempts + 1,
            sleptMs := if r > 0 then tr.sleptMs + 200 else tr.sleptMs } by
          simp [pollHealthAux, hc]]
      rw [ih (attempt + 1)]
      rcases h : firstTrue connect (attempt + 1) r with _ | k
      · simp only [firstTrue, hc, Bool.false_eq_true, if_false, h]
        rcases Nat.eq_zero_or_pos r with hr | hr
        · subst hr; simp
        · simp only [Prod.mk.injEq, PollTrace.mk.injEq, hr, if_pos]
          exact ⟨trivial, by omega, by omega⟩
      · obtain ⟨hk, hak, hkb, _⟩ := firstTrue_some connect r (attempt + 1) k h
        simp only [firstTrue, hc, Bool.false_eq_true, if_false, h]
        have hr : 0 < r := by omega
        simp only [Prod.mk.injEq, PollTrace.mk.injEq, hr, if_pos]
        exact ⟨trivial, by omega, by omega⟩

/-- The drain loop's output is exactly the logs of the consumed prefix,
and it leaves exactly the records after the first `Terminated` unread. -/
lemma drain_sidecar_events_eq (es : List CommandEvent) :
    drain_sidecar_events es = (logsOf (consumedRecords es), unreadRecords es) := by
  induction es with
  | nil => rfl
  | cons e rest ih =>
    cases e <;>
      simp [drain_sidecar_events, consumedRecords, unreadRecords, isTerminated,
        logsOf, logOf, ih]

/-- The stream splits into the consumed prefix and the unread suffix. -/
lemma consumed_append_unread (es : List CommandEvent) :
    es = consumedRecords es ++ unreadRecords es := by
  induction es with
  | nil => rfl
  | cons e rest ih =>
    by_cases h : isTerminated e = true
    · simp [consumedRecords, unreadRecords, h]
    · rw [Bool.not_eq_true] at h
      simp only [consumedRecords, unreadRecords, h, Bool.false_eq_true, if_false,
        List.cons_append]
      exact congrArg (e :: ·) ih

/-- When the first `Terminated` is exhibited explicitly, the consumed prefix
ends at it and the unread suffix is everything after it. -/
lemma consumed_of_first_terminated :
    ∀ (pre : List CommandEvent) (code signal : Option Int) (post : List CommandEvent),
      (∀ e ∈ pre, isTerminated e = false) →
      consumedRecords (pre ++ CommandEvent.terminated code signal :: post) =
          pre ++ [CommandEvent.terminated code signal] ∧
        unreadRecords (pre ++ CommandEvent.terminated code signal :: post) = post := by
  intro pre
  induction pre with
  | nil => intro code signal post _; simp [consumedRecords, unreadRecords, isTerminated]
  | cons e rest ih =>
    intro code signal post hpre
    have he : isTerminated e = false := hpre e (by simp)
    have := ih code signal post (fun x hx => hpre x (by simp [hx]))
    simp only [List.cons_append, consumedRecords, unreadRecords, he,
      Bool.false_eq_true, if_false]
    exact ⟨congrArg (e :: ·) this.1, this.2⟩

/-! ## Claims -/

/-- C1: for every port and `maxAttempts` N ≥ 1, `poll_health` makes at
most N connection attempts; if some attempt in 1..N can succeed it returns
`Ok` at the first such attempt, having slept 200ms after each of the
preceding failed attempts and not after the succeeding one; if all N
attempts fail it returns an error carrying the attempt count N and the
port, having made exactly N attempts and slept 200ms after each failed
attempt except the final one. -/
theorem c1_poll_health_backoff (connect : Nat → Bool) (port N : Nat) (_hN : 1 ≤ N) :
    (poll_health connect port N).2.attempts ≤ N ∧
    ((∃ k, 1 ≤ k ∧ k ≤ N ∧ connect k = true) →
      (poll_health connect port N).1 = Except.ok () ∧
      1 ≤ (poll_health connect port N).2.attempts ∧
      connect (poll_health connect port N).2.attempts = true ∧
      (∀ j, 1 ≤ j → j < (poll_health connect port N).2.attempts → connect j = false) ∧
      (poll_health connect port N).2.sleptMs =
        200 * ((poll_health connect port N).2.attempts - 1)) ∧
    ((∀ k, 1 ≤ k → k ≤ N → connect k = false) →
      (poll_health connect port N).1 = Except.error ⟨N, port⟩ ∧
      (poll_health connect port N).2.attempts = N ∧
      (poll_health connect port N).2.sleptMs = 200 * (N - 1)) := by
  have he := pollHealthAux_eq connect port N N 1 ⟨0, 0⟩
  rcases h : firstTrue connect 1 N with _ | k
  · rw [h] at he
    have hall := (firstTrue_none connect N 1).mp h
    have h1 : (poll_health connect port N).1 = Except.error ⟨N, port⟩ := by
      simp [poll_health, he]
    have h2 : (poll_health connect port N).2.attempts = N := by
      simp [poll_health, he]
    have h3 : (poll_health connect port N).2.sleptMs = 200 * (N - 1) := by
      simp [poll_health, he]
    refine ⟨by omega, ?_, fun _ => ⟨h1, h2, h3⟩⟩
    rintro ⟨k, hk1, hk2, hk3⟩
    have := hall k hk1 (by omega)
    simp [this] at hk3
  · rw [h] at he
    obtain ⟨hk, hak, hkb, hmin⟩ := firstTrue_some connect N 1 k h
    have h1 : (poll_health connect port N).1 = Except.ok () := by
      simp [poll_health, he]
    have h2 : (poll_health connect port N).2.attempts = k := by
      simp [poll_health, he]
    have h3 : (poll_health connect port N).2.sleptMs = 200 * (k - 1) := by
      simp [poll_health, he]
    refine ⟨by omega, fun _ => ⟨h1, by omega, ?_, ?_, by rw [h2, h3]⟩, ?_⟩
    · rw [h2]; exact hk
    · intro j hj hjk
      rw [h2] at hjk
      exact hmin j hj (by omega)
    · intro hnone
      exact absurd hk (by simp [hnone k hak (by omega)])

/-- Witness for C1: with a listener that starts accepting at attempt 2 and
budget 3, the probe succeeds after 2 attempts with one 200ms sleep. -/
theorem c1_poll_health_backoff_witness :
    (1 ≤ 3 ∧ (poll_health (fun k => k == 2) 5 3).1 = Except.ok ()) ∧
      (poll_health (fun k => k == 2) 5 3).2 = ⟨2, 200⟩ :=
  ⟨⟨by decide,
    ((c1_poll_health_backoff (fun k => k == 2) 5 3 (by decide)).2.1
      ⟨2, by decide, by decide, by decide⟩).1⟩,
   by decide⟩

/-- C3: for every SupervisorState, `get_sidecar_port` returns `None` if the
stored port is 0 and `Some(port)` otherwise; in particular it returns
`None` on the state created at host startup, and `Some p` once a nonzero
port `p` has been stored. -/
theorem c3_get_sidecar_port (s : SidecarState) :
    get_sidecar_port (some s) = (if s.port = 0 then none else some s.port) ∧
    get_sidecar_port (some initialState) = none ∧
    (∀ p : Nat, p ≠ 0 → get_sidecar_port (some (devStorePort false s p)) = some p) := by
  refine ⟨get_sidecar_port_some s, by simp [get_sidecar_port_some, initialState], ?_⟩
  intro p hp
  simp [devStorePort, get_sidecar_port_some, hp]

/-- Witness for C3 at a concrete state and port. -/
theorem c3_get_sidecar_port_witness :
    get_sidecar_port (some (devStorePort false initialState 9876)) = some 9876 :=
  (c3_get_sidecar_port initialState).2.2 9876 (by decide)

/-- C4: shutdown takes the process handle out of the state (leaving
`none`), kills exactly the handle that was present, and a second run of
the shutdown step on the resulting state finds no handle and changes
nothing, so kill is issued at most once. -/
theorem c4_shutdown_idempotent (s : SidecarState) :
    (shutdownTake false s).1 = s.child ∧
    (shutdownTake false s).2 = { s with child := none } ∧
    (shutdownTake false (shutdownTake false s).2).1 = none ∧
    (shutdownTake false (shutdownTake false s).2).2 = (shutdownTake false s).2 ∧
    (s.child = none → (shutdownTake false s).1 = none) :=
  ⟨rfl, rfl, rfl, rfl, fun h => by simp [shutdownTake, h]⟩

/-- Witness for C4 at a concrete state holding a child handle. -/
theorem c4_shutdown_idempotent_witness :
    (shutdownTake false { port := 5, child := some 7 }).1 = some 7 ∧
    (shutdownTake false (shutdownTake false { port := 5, child := some 7 }).2).1 = none :=
  ⟨(c4_shutdown_idempotent { port := 5, child := some 7 }).1,
   (c4_shutdown_idempotent { port := 5, child := some 7 }).2.2.1⟩

/-- C9: every state access tolerates a failed (poisoned) lock silently:
the port query returns `None` whatever port is stored, both startup writes
are skipped without reporting an error, and shutdown takes no handle and
kills nothing. -/
theorem c9_poisoned_lock_tolerated (s : SidecarState) (port child : Nat) :
    get_sidecar_port (lockResult true s) = none ∧
    devStorePort true s port = s ∧
    prodStore true s port child = s ∧
    shutdownTake true s = (none, s) :=
  ⟨rfl, rfl, rfl, rfl⟩

/-- Witness for C9 at a concrete state with a nonzero stored port. -/
theorem c9_poisoned_lock_tolerated_witness :
    get_sidecar_port (lockResult true { port := 4242, child := some 1 }) = none :=
  (c9_poisoned_lock_tolerated { port := 4242, child := some 1 } 0 0).1

/-- C8: the port allocator binds to `"127.0.0.1:0"`, returns the
OS-assigned port read back from the bound address, fails with the
bind-error message when the OS refuses to bind and with the query-error
message when the local address cannot be read back — and every error it
can return is one of those two. -/
theorem c8_find_free_port (bind : String → BindOutcome) :
    (∀ p, bind "127.0.0.1:0" = BindOutcome.ok p →
      find_free_port bind = Except.ok p) ∧
    (∀ e, bind "127.0.0.1:0" = BindOutcome.bindFail e →
      find_free_port bind = Except.error ("Failed to bind TCP: " ++ e)) ∧
    (∀ e, bind "127.0.0.1:0" = BindOutcome.localAddrFail e →
      find_free_port bind = Except.error ("Failed to get local addr: " ++ e)) ∧
    (∀ m, find_free_port bind = Except.error m →
      (∃ e, bind "127.0.0.1:0" = BindOutcome.bindFail e ∧
        m = "Failed to bind TCP: " ++ e) ∨
      (∃ e, bind "127.0.0.1:0" = BindOutcome.localAddrFail e ∧
        m = "Failed to get local addr: " ++ e)) := by
  refine ⟨fun p hp => ?_, fun e he => ?_, fun e he => ?_, fun m hm => ?_⟩
  · simp [find_free_port, hp]
  · simp [find_free_port, he]
  · simp [find_free_port, he]
  · rcases h : bind "127.0.0.1:0" with e | e | p
    · exact Or.inl ⟨e, rfl, by simpa [find_free_port, h] using hm.symm⟩
    · exact Or.inr ⟨e, rfl, by simpa [find_free_port, h] using hm.symm⟩
    · simp [find_free_port, h] at hm

/-- Witness for C8 with an oracle whose bind succeeds on port 4321. -/
theorem c8_find_free_port_witness :
    find_free_port (fun _ => BindOutcome.ok 4321) = Except.ok 4321 :=
  (c8_find_free_port (fun _ => BindOutcome.ok 4321)).1 4321 rfl

/-- C7: the drain loop consumes records strictly in arrival order, logging
stdout lines at info level and stderr lines at error level; on the first
`Terminated` record it logs the exit status and stops, and no record after
the first `Terminated` is read or logged. -/
theorem c7_drain_stops_at_terminated (es : List CommandEvent) :
    drain_sidecar_events es = (logsOf (consumedRecords es), unreadRecords es) ∧
    es = consumedRecords es ++ unreadRecords es ∧
    (∀ (pre : List CommandEvent) (code signal : Option Int) (post : List CommandEvent),
      es = pre ++ CommandEvent.terminated code signal :: post →
      (∀ e ∈ pre, isTerminated e = false) →
      consumedRecords es = pre ++ [CommandEvent.terminated code signal] ∧
        unreadRecords es = post) := by
  refine ⟨drain_sidecar_events_eq es, consumed_append_unread es, ?_⟩
  intro pre code signal post hes hpre
  rw [hes]
  exact consumed_of_first_terminated pre code signal post hpre

/-- Witness for C7 on a concrete stream with a record after `Terminated`:
the stdout line is logged at info level, the stderr line at error level,
the exit status is logged, and the trailing record stays unread. -/
theorem c7_drain_stops_at_terminated_witness :
    drain_sidecar_events
        [CommandEvent.stdout [72], CommandEvent.stderr [33],
         CommandEvent.terminated (some 0) none, CommandEvent.stdout [90]] =
      ([LogEntry.info [72], LogEntry.errOut [33], LogEntry.terminatedLog (some 0) none],
       [CommandEvent.stdout [90]]) ∧
    unreadRecords
        [CommandEvent.stdout [72], CommandEvent.stderr [33],
         CommandEvent.terminated (some 0) none, CommandEvent.stdout [90]] =
      [CommandEvent.stdout [90]] :=
  ⟨(c7_drain_stops_at_terminated
      [CommandEvent.stdout [72], CommandEvent.stderr [33],
       CommandEvent.terminated (some 0) none, CommandEvent.stdout [90]]).1,
   ((c7_drain_stops_at_terminated
      [CommandEvent.stdout [72], CommandEvent.stderr [33],
       CommandEvent.terminated (some 0) none, CommandEvent.stdout [90]]).2.2
     [CommandEvent.stdout [72], CommandEvent.stderr [33]] (some 0) none
     [CommandEvent.stdout [90]] rfl (by decide)).2⟩

/-- C6: in dev mode the startup path ignores the allocation and launch
oracles entirely, stores the fixed port 9876 and no process handle, and
reacts only to the 30-attempt probe of port 9876: emitting the ready event
on probe success, and on probe exhaustion merely logging (no emission, and
nothing further is scheduled). -/
theorem c6_dev_mode (bind bind2 : String → BindOutcome)
    (cmd cmd2 : Except String Unit) (sp sp2 : Except String Nat)
    (connect : Nat → Bool) :
    spawn_sidecar true bind2 cmd2 sp2 connect = spawn_sidecar true bind cmd sp connect ∧
    (applyTrace initialState (spawn_sidecar true bind cmd sp connect)).port = 9876 ∧
    (applyTrace initialState (spawn_sidecar true bind cmd sp connect)).child = none ∧
    (∀ p c, Action.setPortChild p c ∉ spawn_sidecar true bind cmd sp connect) ∧
    ((poll_health connect 9876 30).1 = Except.ok () →
      Action.emitReady ⟨9876⟩ ∈ spawn_sidecar true bind cmd sp connect) ∧
    (∀ pe, (poll_health connect 9876 30).1 = Except.error pe →
      (∀ pl, Action.emitReady pl ∉ spawn_sidecar true bind cmd sp connect) ∧
      (∃ m, Action.logError m ∈ spawn_sidecar true bind cmd sp connect)) := by
  rcases hpoll : (poll_health connect 9876 30).1 with pe | u
  · refine ⟨by simp [spawn_sidecar, hpoll], ?_, ?_, ?_, ?_, ?_⟩
    · simp [spawn_sidecar, hpoll, applyTrace, applyAction, devStorePort, initialState]
    · simp [spawn_sidecar, hpoll, applyTrace, applyAction, devStorePort, initialState]
    · intro p c; simp [spawn_sidecar, hpoll]
    · intro hok; simp [hpoll] at hok
    · intro _ _
      refine ⟨fun pl => by simp [spawn_sidecar, hpoll], ?_⟩
      exact ⟨"Dev sidecar not reachable on port " ++ toString 9876 ++
        " -- frontend will retry", by simp [spawn_sidecar, hpoll]⟩
  · refine ⟨by simp [spawn_sidecar, hpoll], ?_, ?_, ?_, ?_, ?_⟩
    · simp [spawn_sidecar, hpoll, applyTrace, applyAction, devStorePort, initialState]
    · simp [spawn_sidecar, hpoll, applyTrace, applyAction, devStorePort, initialState]
    · intro p c; simp [spawn_sidecar, hpoll]
    · intro _; simp [spawn_sidecar, hpoll]
    · intro pe hpe; simp [hpoll] at hpe

/-- Witness for C6 with an always-failing prober: the port is stored, no
handle is stored, and no ready event appears in the trace. -/
theorem c6_dev_mode_witness :
    (applyTrace initialState (spawn_sidecar true (fun _ => BindOutcome.ok 1)
      (Except.ok ()) (Except.ok 0) (fun _ => false))).port = 9876 ∧
    (applyTrace initialState (spawn_sidecar true (fun _ => BindOutcome.ok 1)
      (Except.ok ()) (Except.ok 0) (fun _ => false))).child = none :=
  ⟨(c6_dev_mode (fun _ => BindOutcome.ok 1) (fun _ => BindOutcome.ok 1)
      (Except.ok ()) (Except.ok ()) (Except.ok 0) (Except.ok 0) (fun _ => false)).2.1,
   (c6_dev_mode (fun _ => BindOutcome.ok 1) (fun _ => BindOutcome.ok 1)
      (Except.ok ()) (Except.ok ()) (Except.ok 0) (Except.ok 0) (fun _ => false)).2.2.1⟩

/-- C5: in production mode, if port allocation, sidecar-command creation
or process spawn fails, the startup attempt halts: the failure is logged,
no ready event is emitted, no state write happens (the state is left
exactly as at startup), and the port query keeps answering `none`.  The
model function is total, so the host does not crash. -/
theorem c5_prod_failure_halts (bind : String → BindOutcome) (cmd : Except String Unit)
    (sp : Except String Nat) (connect : Nat → Bool)
    (hfail : (∃ e, find_free_port bind = Except.error e) ∨
      (∃ e, cmd = Except.error e) ∨ (∃ e, sp = Except.error e)) :
    (∃ m, Action.logError m ∈ spawn_sidecar false bind cmd sp connect) ∧
    (∀ pl, Action.emitReady pl ∉ spawn_sidecar false bind cmd sp connect) ∧
    (∀ p, Action.setPort p ∉ spawn_sidecar false bind cmd sp connect) ∧
    (∀ p c, Action.setPortChild p c ∉ spawn_sidecar false bind cmd sp connect) ∧
    applyTrace initialState (spawn_sidecar false bind cmd sp connect) = initialState ∧
    get_sidecar_port
      (some (applyTrace initialState (spawn_sidecar false bind cmd sp connect))) = none := by
  rcases hb : find_free_port bind with e | port
  · refine ⟨⟨"Could not find free port: " ++ e, ?_⟩, ?_, ?_, ?_, ?_, ?_⟩ <;>
      simp [spawn_sidecar, hb, applyTrace, applyAction, initialState,
        get_sidecar_port, Option.filter]
  · rcases hc : cmd with e | u
    · refine ⟨⟨"Failed to create sidecar command: " ++ e, ?_⟩, ?_, ?_, ?_, ?_, ?_⟩ <;>
        simp [spawn_sidecar, hb, hc, applyTrace, applyAction, initialState,
          get_sidecar_port, Option.filter]
    · rcases hs : sp with e | child
      · refine ⟨⟨"Failed to spawn sidecar: " ++ e, ?_⟩, ?_, ?_, ?_, ?_, ?_⟩ <;>
          simp [spawn_sidecar, hb, hc, hs, applyTrace, applyAction, initialState,
            get_sidecar_port, Option.filter]
      · exfalso
        rcases hfail with ⟨e2, he⟩ | ⟨e2, he⟩ | ⟨e2, he⟩ <;> simp_all

/-- Witness for C5: a failing bind is logged, and the port query still
answers `none` after the halted startup. -/
theorem c5_prod_failure_halts_witness :
    get_sidecar_port
      (some (applyTrace initialState (spawn_sidecar false
        (fun _ => BindOutcome.bindFail "no sockets") (Except.ok ()) (Except.ok 0)
        (fun _ => false)))) = none :=
  (c5_prod_failure_halts (fun _ => BindOutcome.bindFail "no sockets") (Except.ok ())
    (Except.ok 0) (fun _ => false)
    (Or.inl ⟨"Failed to bind TCP: " ++ "no sockets", rfl⟩)).2.2.2.2.2

/-- C2: in every run (dev or production), whenever the `sidecar-ready`
event occurs at position `j` of the action trace, a write of the matching
port into the shared state occurs at a strictly earlier position, and a
consumer reading the state after the trace sees `some` of the matching
port through the port query.  (The emitted port is nonzero by hypothesis;
in dev mode it is the constant 9876 and in production the OS-assigned port
of a successful bind, which is never 0.) -/
theorem c2_ready_after_state_write (devMode : Bool) (bind : String → BindOutcome)
    (cmd : Except String Unit) (sp : Except String Nat) (connect : Nat → Bool)
    (payload : SidecarReadyPayload) (j : Nat)
    (hemit : (spawn_sidecar devMode bind cmd sp connect)[j]? =
      some (Action.emitReady payload))
    (hp : payload.port ≠ 0) :
    (∃ i, i < j ∧ ∃ a, (spawn_sidecar devMode bind cmd sp connect)[i]? = some a ∧
      writesPort payload.port a = true) ∧
    get_sidecar_port
        (some (applyTrace initialState (spawn_sidecar devMode bind cmd sp connect))) =
      some payload.port := by
  obtain ⟨pp⟩ := payload
  simp only at hp
  cases devMode with
  | true =>
    rcases hpoll : (poll_health connect 9876 30).1 with pe | u
    · exfalso
      rcases j with _ | _ | _ | j <;> simp [spawn_sidecar, hpoll] at hemit
    · rcases j with _ | _ | _ | j
      · exfalso; simp [spawn_sidecar, hpoll] at hemit
      · exfalso; simp [spawn_sidecar, hpoll] at hemit
      · simp [spawn_sidecar, hpoll] at hemit
        have hpp : pp = 9876 := by omega
        subst hpp
        refine ⟨⟨1, by omega, Action.setPort 9876, ?_, by simp [writesPort]⟩, ?_⟩
        · simp [spawn_sidecar, hpoll]
        · simp [spawn_sidecar, hpoll, applyTrace, applyAction, devStorePort,
            initialState, get_sidecar_port_some]
      · exfalso; simp [spawn_sidecar, hpoll] at hemit
  | false =>
    rcases hb : find_free_port bind with e | port
    · exfalso
      rcases j with _ | _ | _ | _ | j <;> simp [spawn_sidecar, hb] at hemit
    · rcases hc : cmd with e | u
      · exfalso
        rcases j with _ | _ | _ | _ | j <;> simp [spawn_sidecar, hb, hc] at hemit
      · rcases hs : sp with e | child
        · exfalso
          rcases j with _ | _ | _ | _ | j <;> simp [spawn_sidecar, hb, hc, hs] at hemit
        · rcases hpoll : (poll_health connect port 30).1 with pe | u
          · exfalso
            rcases j with _ | _ | _ | _ | j <;>
              simp [spawn_sidecar, hb, hc, hs, hpoll] at hemit
          · rcases j with _ | _ | _ | _ | j
            · exfalso; simp [spawn_sidecar, hb, hc, hs, hpoll] at hemit
            · exfalso; simp [spawn_sidecar, hb, hc, hs, hpoll] at hemit
            · exfalso; simp [spawn_sidecar, hb, hc, hs, hpoll] at hemit
            · simp [spawn_sidecar, hb, hc, hs, hpoll] at hemit
              have hpp : pp = port := by omega
              subst hpp
              refine ⟨⟨2, by omega, Action.setPortChild pp child, ?_, by simp [writesPort]⟩, ?_⟩
              · simp [spawn_sidecar, hb, hc, hs, hpoll]
              · simp [spawn_sidecar, hb, hc, hs, hpoll, applyTrace, applyAction,
                  prodStore, initialState, get_sidecar_port_some, hp]
            · exfalso; simp [spawn_sidecar, hb, hc, hs, hpoll] at hemit

/-- Witness for C2: a dev-mode run whose probe succeeds emits the ready
event at index 2, after the port write at index 1, and the final state
answers the matching port. -/
theorem c2_ready_after_state_write_witness :
    (∃ i, i < 2 ∧ ∃ a, (spawn_sidecar true (fun _ => BindOutcome.ok 1) (Except.ok ())
        (Except.ok 0) (fun _ => true))[i]? = some a ∧ writesPort 9876 a = true) ∧
    get_sidecar_port
        (some (applyTrace initialState (spawn_sidecar true (fun _ => BindOutcome.ok 1)
          (Except.ok ()) (Except.ok 0) (fun _ => true)))) = some 9876 :=
  c2_ready_after_state_write true (fun _ => BindOutcome.ok 1) (Except.ok ())
    (Except.ok 0) (fun _ => true) ⟨9876⟩ 2 rfl (by decide)

/-- C10: the port, once stored, persists — the shutdown step never touches
the port field of the state, non-write actions (log lines, event emission,
and in particular a probe outcome) never change the state at all, every
startup trace contains at most one state write, and whenever the state
after startup holds a nonzero port the port query answers `some` of that
same port both before and after the shutdown step, whether or not any
ready event was ever emitted. -/
theorem c10_port_never_reset (devMode : Bool) (bind : String → BindOutcome)
    (cmd : Except String Unit) (sp : Except String Nat) (connect : Nat → Bool)
    (b : Bool) (s : SidecarState) (a : Action) :
    ((shutdownTake b s).2.port = s.port) ∧
    (isWrite a = false → applyAction s a = s) ∧
    ((spawn_sidecar devMode bind cmd sp connect).filter isWrite).length ≤ 1 ∧
    ((applyTrace initialState (spawn_sidecar devMode bind cmd sp connect)).port ≠ 0 →
      get_sidecar_port
          (some (applyTrace initialState (spawn_sidecar devMode bind cmd sp connect))) =
        some (applyTrace initialState (spawn_sidecar devMode bind cmd sp connect)).port ∧
      get_sidecar_port
          (some (shutdownTake b
            (applyTrace initialState (spawn_sidecar devMode bind cmd sp connect))).2) =
        some (applyTrace initialState (spawn_sidecar devMode bind cmd sp connect)).port) := by
  have h1 : ∀ t : SidecarState, (shutdownTake b t).2.port = t.port := by
    intro t; cases b <;> rfl
  have h2 : isWrite a = false → applyAction s a = s := by
    intro h; cases a <;> simp_all [isWrite, applyAction]
  have h4 : ∀ t : SidecarState, t.port ≠ 0 →
      get_sidecar_port (some t) = some t.port ∧
      get_sidecar_port (some (shutdownTake b t).2) = some t.port := by
    intro t ht
    constructor
    · simp [get_sidecar_port_some, ht]
    · have hp := h1 t
      rw [get_sidecar_port_some, hp, if_neg ht]
  refine ⟨h1 s, h2, ?_,
    h4 (applyTrace initialState (spawn_sidecar devMode bind cmd sp connect))⟩
  cases devMode with
  | true =>
    rcases hpoll : (poll_health connect 9876 30).1 with pe | u <;>
      simp [spawn_sidecar, hpoll, List.filter, isWrite]
  | false =>
    rcases hb : find_free_port bind with e | port
    · simp [spawn_sidecar, hb, List.filter, isWrite]
    · rcases hc : cmd with e | u
      · simp [spawn_sidecar, hb, hc, List.filter, isWrite]
      · rcases hs : sp with e | child
        · simp [spawn_sidecar, hb, hc, hs, List.filter, isWrite]
        · rcases hpoll : (poll_health connect port 30).1 with pe | u <;>
            simp [spawn_sidecar, hb, hc, hs, hpoll, List.filter, isWrite]

/-- Witness for C10: after a dev-mode startup whose probe never succeeds
(no ready event emitted) followed by the shutdown step, the port query
still answers the stored port 9876. -/
theorem c10_port_never_reset_witness :
    get_sidecar_port
        (some (shutdownTake false
          (applyTrace initialState (spawn_sidecar true (fun _ => BindOutcome.ok 1)
            (Except.ok ()) (Except.ok 0) (fun _ => false)))).2) = some 9876 :=
  ((c10_port_never_reset true (fun _ => BindOutcome.ok 1) (Except.ok ()) (Except.ok 0)
      (fun _ => false) false initialState (Action.logInfo "x")).2.2.2 (by decide)).2

end Claudetini
